import Mathlib

/-!
Shallow embedding of the session-lifecycle and weighted-vote core of the
repository (FastAPI + SQLAlchemy voting service).

Conventions of the embedding:
* timestamps are natural numbers (seconds); `datetime.now(timezone.utc)` becomes
  an explicit `now : Nat` argument threaded to every operation that reads the clock;
* SQLAlchemy rows become structures, tables become lists held in a `DB` record;
  `created_at` / `updated_at` audit columns, which no modelled operation reads,
  are omitted;
* the float column `weight` only ever holds 1.0, 0.5 and 0.25 and exact sums of
  those (all exactly representable in binary floating point at these magnitudes),
  so it is embedded as `ℚ`;
* each Python method raising `ValueError` becomes a function returning
  `DB × Except VoteError α`: the state component is the transactional state the
  operation leaves behind (possibly changed by the auto-close sweep even when the
  operation itself fails), the second component its result.
-/

namespace ConviusVote

/-- `VoteSessionStatus` enum, `app/models/models.py`. -/
inductive VoteSessionStatus where
  | draft
  | active
  | closed
deriving DecidableEq, Repr, BEq

/-- `Restaurant` row, `app/models/models.py` (the columns the core reads). -/
structure Restaurant where
  id : Nat
  name : String
deriving DecidableEq, Repr, BEq

/-- `VoteSession` row, `app/models/models.py`.  `restaurants` is the list of member
restaurant ids held in the `vote_session_restaurants` junction table. -/
structure VoteSession where
  id : Nat
  title : String
  description : Option String
  status : VoteSessionStatus
  created_by_user_id : Nat
  votes_per_user : Nat
  auto_close_at : Option Nat
  started_at : Option Nat
  ended_at : Option Nat
  restaurants : List Nat
deriving DecidableEq, Repr, BEq

/-- `VoteParticipation` row, `app/models/models.py` (`voted_at` omitted: unread). -/
structure VoteParticipation where
  vote_session_id : Nat
  user_id : Nat
  restaurant_id : Nat
  vote_sequence : Nat
  weight : ℚ
deriving DecidableEq, Repr, BEq

/-- The persistent state the modelled operations touch. -/
structure DB where
  sessions : List VoteSession
  restaurants : List Restaurant
  participations : List VoteParticipation
deriving DecidableEq, Repr

/-- The `ValueError`s raised by `CRUDVoteSession` / `CRUDVoteParticipation`,
one constructor per distinct message. -/
inductive VoteError where
  | sessionNotFound        -- "Vote session not found"
  | notCreator             -- "Only the session creator can ..."
  | notDraft               -- "Can only start draft sessions"
  | noRestaurants          -- "Cannot start session without restaurants"
  | notActive              -- "Can only end active sessions" / "Cannot vote in inactive session"
  | restaurantNotInSession -- "Restaurant is not part of this vote session"
  | budgetExhausted        -- "User has already cast ... votes in this session"
  | constraintViolation    -- "Vote constraint violation"
  | autoCloseNotFuture     -- "auto_close_at must be in the future" (422)
  | autoCloseTooFar        -- "auto_close_at cannot be more than 30 days in the future" (422)
deriving DecidableEq, Repr

/-- `db.query(VoteSession).filter(VoteSession.id == session_id).first()`. -/
def findSession (db : DB) (sid : Nat) : Option VoteSession :=
  db.sessions.find? (fun s => s.id == sid)

/-- The filter `VoteSession.status == ACTIVE, auto_close_at.isnot(None), auto_close_at <= now`
of `check_and_auto_close_sessions`, `app/crud/crud_vote_session.py`. -/
def expiredActive (now : Nat) (s : VoteSession) : Bool :=
  decide (s.status = .active) &&
    (match s.auto_close_at with
     | some t => decide (t ≤ now)
     | none => false)

/-- The per-row effect of the auto-close sweep: an expired ACTIVE session becomes
CLOSED with `ended_at = now`; any other row is untouched. -/
def sweepSession (now : Nat) (s : VoteSession) : VoteSession :=
  if expiredActive now s then { s with status := .closed, ended_at := some now }
  else s

/-- `CRUDVoteSession.check_and_auto_close_sessions`, `app/crud/crud_vote_session.py`:
every ACTIVE session whose `auto_close_at` has passed is set to CLOSED with
`ended_at = now`; returns the new state and the closed count. -/
def checkAndAutoCloseSessions (db : DB) (now : Nat) : DB × Nat :=
  ({ db with sessions := db.sessions.map (sweepSession now) },
   (db.sessions.filter (expiredActive now)).length)

/-- The query of `VoteParticipation` rows of one session
(`filter(VoteParticipation.vote_session_id == session_id)`). -/
def sessionVotes (db : DB) (sid : Nat) : List VoteParticipation :=
  db.participations.filter (fun p => p.vote_session_id == sid)

/-- The query of one user's `VoteParticipation` rows in one session, used by
`vote_in_session` to compute `user_vote_count`. -/
def userVotes (db : DB) (sid uid : Nat) : List VoteParticipation :=
  db.participations.filter (fun p => p.vote_session_id == sid && p.user_id == uid)

/-- The weighted-voting schedule of `vote_in_session`,
`app/crud/crud_vote_participation.py`: 1st = 1.0, 2nd = 0.5, 3rd+ = 0.25. -/
def weightOfSequence (seq : Nat) : ℚ :=
  if seq = 1 then 1
  else if seq = 2 then 1/2
  else 1/4

/-- Steps 2–6 of `CRUDVoteParticipation.vote_in_session`,
`app/crud/crud_vote_participation.py` (everything after the auto-close sweep):
validate the session exists and is ACTIVE, the restaurant is a member, and the
user still has budget; then append a `VoteParticipation` with
`vote_sequence = user_vote_count + 1` and the scheduled weight. -/
def castVote (db : DB) (sid rid uid : Nat) :
    DB × Except VoteError VoteParticipation :=
  match findSession db sid with
  | none => (db, .error .sessionNotFound)
  | some s =>
    if s.status ≠ .active then (db, .error .notActive)
    else if ¬ (s.restaurants.contains rid) then (db, .error .restaurantNotInSession)
    else
      let count := (userVotes db sid uid).length
      if s.votes_per_user ≤ count then (db, .error .budgetExhausted)
      else
        let seq := count + 1
        let w : ℚ := if seq = 1 then 1 else if seq = 2 then 1/2 else 1/4
        let p : VoteParticipation :=
          { vote_session_id := sid, user_id := uid, restaurant_id := rid,
            vote_sequence := seq, weight := w }
        ({ db with participations := db.participations ++ [p] }, .ok p)

/-- `CRUDVoteParticipation.vote_in_session`, `app/crud/crud_vote_participation.py`:
"Check for auto-close sessions first", then validate and append as in `castVote`. -/
def voteInSession (db : DB) (sid rid uid now : Nat) :
    DB × Except VoteError VoteParticipation :=
  castVote (checkAndAutoCloseSessions db now).1 sid rid uid

/-- `CRUDVoteSession.start_session`, `app/crud/crud_vote_session.py`: creator-gated,
requires DRAFT and non-empty membership; sets ACTIVE and stamps `started_at`. -/
def startSession (db : DB) (sid uid now : Nat) : DB × Except VoteError Unit :=
  match findSession db sid with
  | none => (db, .error .sessionNotFound)
  | some s =>
    if s.created_by_user_id ≠ uid then (db, .error .notCreator)
    else if s.status ≠ .draft then (db, .error .notDraft)
    else if s.restaurants = [] then (db, .error .noRestaurants)
    else
      ({ db with
          sessions := db.sessions.map (fun t =>
            if t.id == sid then { t with status := .active, started_at := some now }
            else t) },
       .ok ())

/-- `CRUDVoteSession.end_session`, `app/crud/crud_vote_session.py`: creator-gated,
requires ACTIVE; sets CLOSED and stamps `ended_at`. -/
def endSession (db : DB) (sid uid now : Nat) : DB × Except VoteError Unit :=
  match findSession db sid with
  | none => (db, .error .sessionNotFound)
  | some s =>
    if s.created_by_user_id ≠ uid then (db, .error .notCreator)
    else if s.status ≠ .active then (db, .error .notActive)
    else
      ({ db with
          sessions := db.sessions.map (fun t =>
            if t.id == sid then { t with status := .closed, ended_at := some now }
            else t) },
       .ok ())

/-- Modelled from the spec: `CRUDBase.update` lives in `app/crud/base.py`, which is
not among the provided sources (only its callers are).  The spec states the session
row is "owned exclusively by SessionLifecycle; mutated only through its operations",
and the update endpoint's input schema `VoteSessionUpdate`
(`app/schemas/vote_session.py`) carries only `title` and `description`, so the
generic field-copying update can write those two columns and nothing else.  The
endpoint (`update_vote_session`, `app/api/v1/endpoints/vote_sessions.py`) first
checks existence and creator. -/
def updateSession (db : DB) (sid uid : Nat) (title descr : Option String) :
    DB × Except VoteError Unit :=
  match findSession db sid with
  | none => (db, .error .sessionNotFound)
  | some s =>
    if s.created_by_user_id ≠ uid then (db, .error .notCreator)
    else
      ({ db with
          sessions := db.sessions.map (fun t =>
            if t.id == sid then
              { t with
                  title := title.getD t.title,
                  description := descr.elim t.description some }
            else t) },
       .ok ())

/-- One row of the aggregated results query of `get_session_with_results`
(`Restaurant.id, Restaurant.name, sum(weight), count(distinct user_id)`). -/
structure ResultRow where
  restaurant_id : Nat
  restaurant_name : String
  weighted_votes : ℚ
  distinct_voters : Nat
deriving DecidableEq, Repr, BEq

/-- One group of the `GROUP BY (Restaurant.id, Restaurant.name)` aggregation:
`none` when the restaurant has no votes among `vs` (an inner join produces no row
for it), otherwise the aggregate row with `sum(weight)` and
`count(distinct user_id)`. -/
def groupRow (vs : List VoteParticipation) (r : Restaurant) : Option ResultRow :=
  if (vs.filter (fun p => p.restaurant_id == r.id)).isEmpty then none
  else some
    { restaurant_id := r.id, restaurant_name := r.name,
      weighted_votes :=
        ((vs.filter (fun p => p.restaurant_id == r.id)).map
          (fun p => p.weight)).sum,
      distinct_voters :=
        (((vs.filter (fun p => p.restaurant_id == r.id)).map
          (fun p => p.user_id)).dedup).length }

/-- The grouped rows of the inner join `Restaurant ⋈ VoteParticipation` filtered
to one session, in underlying table order, not yet sorted. -/
def groupRows (db : DB) (sid : Nat) : List ResultRow :=
  db.restaurants.filterMap (groupRow (sessionVotes db sid))

/-- The `ORDER BY sum(weight) DESC, count(distinct user_id) DESC` relation: row `a`
may precede row `b`.  Note the query orders by nothing else; rows tied on both keys
are in no particular relative order. -/
def rowGE (a b : ResultRow) : Prop :=
  b.weighted_votes < a.weighted_votes ∨
    (a.weighted_votes = b.weighted_votes ∧ b.distinct_voters ≤ a.distinct_voters)

instance : DecidableRel rowGE := fun a b => by
  unfold rowGE; infer_instance

instance : IsTotal ResultRow rowGE where
  total a b := by
    rcases lt_trichotomy a.weighted_votes b.weighted_votes with h | h | h
    · exact Or.inr (Or.inl h)
    · rcases Nat.le_total a.distinct_voters b.distinct_voters with hd | hd
      · exact Or.inr (Or.inr ⟨h.symm, hd⟩)
      · exact Or.inl (Or.inr ⟨h, hd⟩)
    · exact Or.inl (Or.inl h)

instance : IsTrans ResultRow rowGE where
  trans a b c hab hbc := by
    rcases hab with hab | ⟨hab, hab'⟩
    · rcases hbc with hbc | ⟨hbc, _⟩
      · exact Or.inl (hbc.trans hab)
      · exact Or.inl (hbc ▸ hab)
    · rcases hbc with hbc | ⟨hbc, hbc'⟩
      · exact Or.inl (hab ▸ hbc)
      · exact Or.inr ⟨hab.trans hbc, le_trans hbc' hab'⟩

/-- The ordered result rows of `get_session_with_results`: the grouped rows sorted
by the two `ORDER BY` keys.  The sort is stable (Mathlib's insertion sort), i.e.
rows fully tied on both keys keep the underlying table order — the query itself
imposes no order on such ties. -/
def resultRows (db : DB) (sid : Nat) : List ResultRow :=
  (groupRows db sid).insertionSort rowGE

/-- The `total_votes` scalar query of `get_session_with_results`:
`sum(weight)` over the session's participations, `or 0` when there are none. -/
def totalVotes (db : DB) (sid : Nat) : ℚ :=
  ((sessionVotes db sid).map (fun p => p.weight)).sum

/-- The value `get_session_with_results` returns: the session row plus the
post-hoc `total_votes` and `results` attributes. -/
structure SessionResults where
  session : VoteSession
  total_votes : ℚ
  results : List ResultRow
deriving DecidableEq, Repr

/-- `CRUDVoteSession.get_session_with_results`, `app/crud/crud_vote_session.py`.
Faithful to the source: it performs NO auto-close sweep and reads no clock — it
only fetches the session row (returning `none` when absent) and computes the
aggregates. -/
def getSessionWithResults (db : DB) (sid : Nat) : Option SessionResults :=
  (findSession db sid).map (fun s =>
    { session := s, total_votes := totalVotes db sid, results := resultRows db sid })

/-- The winning-restaurant query of `end_session_with_winner`: the `Restaurant`
row of the top group under the same two-key order, `.first()` = `none` when the
session has no votes. -/
def winnerQuery (db : DB) (sid : Nat) : Option Restaurant :=
  (resultRows db sid).head?.bind (fun row =>
    db.restaurants.find? (fun r => r.id == row.restaurant_id))

/-- `CRUDVoteSession.end_session_with_winner`, `app/crud/crud_vote_session.py`:
`end_session` followed by the winning-restaurant query; the winner is attached to
the returned session as the post-hoc `winning_restaurant` attribute. -/
def endSessionWithWinner (db : DB) (sid uid now : Nat) :
    DB × Except VoteError (Option Restaurant) :=
  match endSession db sid uid now with
  | (db', .ok ()) => (db', .ok (winnerQuery db' sid))
  | (db', .error e) => (db', .error e)

/-- The `POST /vote-sessions/\x7bsession_id\x7d/end` endpoint `end_vote_session`,
`app/api/v1/endpoints/vote_sessions.py`: it calls plain `end_session` (NOT
`end_session_with_winner`) and its `response_model=VoteSession` carries no
`winning_restaurant` field, so the response is just the closed session row. -/
def endVoteSessionEndpoint (db : DB) (sid uid now : Nat) :
    DB × Except VoteError Unit :=
  endSession db sid uid now

/-- Number of seconds in the `timedelta(days=30)` bound of `validate_auto_close_at`. -/
def thirtyDays : Nat := 30 * 86400

/-- `validate_auto_close_at(auto_close_at, allow_past=False)`,
`app/schemas/vote_session.py`, as invoked by the create endpoint: `None` passes;
otherwise rejects `auto_close_at ≤ now` ("must be in the future") and
`auto_close_at > now + 30 days` ("cannot be more than 30 days in the future").
(The `allow_past=True` branch is never taken from the endpoints and is omitted.) -/
def validateAutoCloseAt (auto_close_at : Option Nat) (now : Nat) :
    Except VoteError Unit :=
  match auto_close_at with
  | none => .ok ()
  | some t =>
    if t ≤ now then .error .autoCloseNotFuture
    else if now + thirtyDays < t then .error .autoCloseTooFar
    else .ok ()

/-- The input schema `VoteSessionCreate`, `app/schemas/vote_session.py`. -/
structure VoteSessionCreateInput where
  title : String
  description : Option String
  votes_per_user : Nat
  auto_close_at : Option Nat
deriving DecidableEq, Repr

/-- The `POST /vote-sessions/` endpoint `create_vote_session`,
`app/api/v1/endpoints/vote_sessions.py` composed with
`CRUDVoteSession.create_vote_session`: validate `auto_close_at` (422 on failure,
nothing persisted), otherwise insert a new DRAFT session row with the given fresh
primary key. -/
def createVoteSessionEndpoint (db : DB) (inp : VoteSessionCreateInput)
    (uid newId now : Nat) : DB × Except VoteError VoteSession :=
  match validateAutoCloseAt inp.auto_close_at now with
  | .error e => (db, .error e)
  | .ok () =>
    let s : VoteSession :=
      { id := newId, title := inp.title, description := inp.description,
        status := .draft, created_by_user_id := uid,
        votes_per_user := inp.votes_per_user, auto_close_at := inp.auto_close_at,
        started_at := none, ended_at := none, restaurants := [] }
    ({ db with sessions := db.sessions ++ [s] }, .ok s)

/-- The lifecycle-touching operations quantified over in claim C3 (the session
status is mutated nowhere else in the sources): start, end, the auto-close sweep,
the update endpoint, and a vote cast (which runs the sweep internally). -/
inductive Op where
  | start (sid uid : Nat)
  | endSess (sid uid : Nat)
  | sweep
  | update (sid uid : Nat) (title descr : Option String)
  | vote (sid rid uid : Nat)

/-- The state left behind by one operation. -/
def applyOp (op : Op) (db : DB) (now : Nat) : DB :=
  match op with
  | .start sid uid => (startSession db sid uid now).1
  | .endSess sid uid => (endSession db sid uid now).1
  | .sweep => (checkAndAutoCloseSessions db now).1
  | .update sid uid title descr => (updateSession db sid uid title descr).1
  | .vote sid rid uid => (voteInSession db sid rid uid now).1

/-- The status of the session row a query for `sid` returns. -/
def statusOf (db : DB) (sid : Nat) : Option VoteSessionStatus :=
  (findSession db sid).map (fun s => s.status)

/-- One permitted move of the status machine: stay put, DRAFT→ACTIVE, or
ACTIVE→CLOSED. -/
def statusStep (s t : VoteSessionStatus) : Prop :=
  s = t ∨ (s = .draft ∧ t = .active) ∨ (s = .active ∧ t = .closed)

/-- The dense sequence list `[1, 2, ..., n]`. -/
def seqList : Nat → List Nat
  | 0 => []
  | n + 1 => seqList n ++ [n + 1]

/-- Ledger invariant: each user's participation rows for a session carry exactly
the sequences `1..count` in insertion order. -/
def denseSequences (db : DB) : Prop :=
  ∀ sid uid, (userVotes db sid uid).map (fun p => p.vote_sequence)
      = seqList (userVotes db sid uid).length

/-- The column triple of the `unique_user_vote_sequence_per_session` constraint,
`VoteParticipation.__table_args__`, `app/models/models.py`. -/
def tripleKey (p : VoteParticipation) : Nat × Nat × Nat :=
  (p.vote_session_id, p.user_id, p.vote_sequence)

/-- The database uniqueness constraint on `(vote_session_id, user_id, vote_sequence)`. -/
def uniqueTriples (db : DB) : Prop :=
  db.participations.Pairwise (fun p q => tripleKey p ≠ tripleKey q)

/-- Ledger invariant: no user's vote count for a session exceeds the session's
`votes_per_user`. -/
def budgetRespected (db : DB) : Prop :=
  ∀ sid uid s, findSession db sid = some s →
    (userVotes db sid uid).length ≤ s.votes_per_user

/-- The conjunction of the vote-ledger invariants of claim C5/C6. -/
def ledgerInv (db : DB) : Prop :=
  denseSequences db ∧ budgetRespected db ∧ uniqueTriples db

/-! Concrete states used by counterexamples and witnesses. -/

/-- An ACTIVE session (id 1, creator 7, budget 3) whose `auto_close_at = 5` has
already passed at any `now ≥ 5`. -/
def sessExpired : VoteSession :=
  { id := 1, title := "lunch", description := none, status := .active,
    created_by_user_id := 7, votes_per_user := 3, auto_close_at := some 5,
    started_at := some 1, ended_at := none, restaurants := [1, 2] }

/-- State with the expired-but-still-ACTIVE session and no votes. -/
def dbExpired : DB :=
  { sessions := [sessExpired],
    restaurants := [{ id := 1, name := "A" }, { id := 2, name := "B" }],
    participations := [] }

/-- State producing a full tie: restaurants 2 and 1 (in that table order) each
hold one weight-1 vote from one distinct voter in session 1. -/
def dbTie : DB :=
  { sessions := [sessExpired],
    restaurants := [{ id := 2, name := "B" }, { id := 1, name := "A" }],
    participations :=
      [ { vote_session_id := 1, user_id := 10, restaurant_id := 2,
          vote_sequence := 1, weight := 1 },
        { vote_session_id := 1, user_id := 11, restaurant_id := 1,
          vote_sequence := 1, weight := 1 } ] }

/-- A DRAFT session (id 1, creator 7) with one member restaurant. -/
def sessDraft : VoteSession :=
  { id := 1, title := "lunch", description := none, status := .draft,
    created_by_user_id := 7, votes_per_user := 3, auto_close_at := none,
    started_at := none, ended_at := none, restaurants := [1] }

/-- State with the draft session. -/
def dbDraft : DB :=
  { sessions := [sessDraft],
    restaurants := [{ id := 1, name := "A" }],
    participations := [] }

/-- An ACTIVE session (id 1, creator 7, budget 3) with no deadline. -/
def sessOpen : VoteSession :=
  { id := 1, title := "lunch", description := none, status := .active,
    created_by_user_id := 7, votes_per_user := 3, auto_close_at := none,
    started_at := some 1, ended_at := none, restaurants := [1, 2] }

/-- State with the open ACTIVE session and no votes yet. -/
def dbOpen : DB :=
  { sessions := [sessOpen],
    restaurants := [{ id := 1, name := "A" }, { id := 2, name := "B" }],
    participations := [] }

/-- An ACTIVE session with budget 1, already used up by user 10. -/
def dbBudget : DB :=
  { sessions :=
      [ { id := 1, title := "lunch", description := none, status := .active,
          created_by_user_id := 7, votes_per_user := 1, auto_close_at := none,
          started_at := some 1, ended_at := none, restaurants := [1] } ],
    restaurants := [{ id := 1, name := "A" }],
    participations :=
      [ { vote_session_id := 1, user_id := 10, restaurant_id := 1,
          vote_sequence := 1, weight := 1 } ] }

/-- The state of the repository's own test
`test_end_vote_session_returns_winning_restaurant`: restaurants "Pizza Place" (1)
and "Burger Joint" (2), an ACTIVE session (budget 2, creator 10), and user 10's
two votes for restaurant 1 (weights 1 and 1/2). -/
def dbEndTest : DB :=
  { sessions :=
      [ { id := 1, title := "Lunch Vote", description := none, status := .active,
          created_by_user_id := 10, votes_per_user := 2, auto_close_at := none,
          started_at := some 1, ended_at := none, restaurants := [1, 2] } ],
    restaurants := [{ id := 1, name := "Pizza Place" }, { id := 2, name := "Burger Joint" }],
    participations :=
      [ { vote_session_id := 1, user_id := 10, restaurant_id := 1,
          vote_sequence := 1, weight := 1 },
        { vote_session_id := 1, user_id := 10, restaurant_id := 1,
          vote_sequence := 2, weight := 1/2 } ] }

/-- A DRAFT session (id 1, creator 7) with no member restaurants. -/
def dbNoMembers : DB :=
  { sessions :=
      [ { id := 1, title := "lunch", description := none, status := .draft,
          created_by_user_id := 7, votes_per_user := 3, auto_close_at := none,
          started_at := none, ended_at := none, restaurants := [] } ],
    restaurants := [],
    participations := [] }

/-! ### Helper lemmas -/

/-- `find?` by id commutes with mapping an id-preserving row transformation. -/
theorem find?_map_comm (f : VoteSession → VoteSession)
    (hf : ∀ s, (f s).id = s.id) (l : List VoteSession) (sid : Nat) :
    (l.map f).find? (fun s => s.id == sid)
      = (l.find? (fun s => s.id == sid)).map f := by
  induction l with
  | nil => rfl
  | cons a l ih =>
    by_cases h : (a.id == sid) = true
    · have h' : ((f a).id == sid) = true := by rw [hf a]; exact h
      rw [List.map_cons,
        @List.find?_cons_of_pos VoteSession (fun s => s.id == sid) (f a) (List.map f l) h',
        @List.find?_cons_of_pos VoteSession (fun s => s.id == sid) a l h,
        Option.map_some']
    · have h' : ¬ ((f a).id == sid) = true := by rw [hf a]; exact h
      rw [List.map_cons,
        @List.find?_cons_of_neg VoteSession (fun s => s.id == sid) (f a) (List.map f l) h',
        @List.find?_cons_of_neg VoteSession (fun s => s.id == sid) a l h, ih]

/-- The sweep does not change a row's primary key. -/
theorem sweepSession_id (now : Nat) (s : VoteSession) :
    (sweepSession now s).id = s.id := by
  unfold sweepSession; split <;> rfl

/-- Looking a session up after the sweep returns the swept row. -/
theorem findSession_sweep (db : DB) (now sid : Nat) :
    findSession (checkAndAutoCloseSessions db now).1 sid
      = (findSession db sid).map (sweepSession now) := by
  unfold findSession checkAndAutoCloseSessions
  exact find?_map_comm (sweepSession now) (sweepSession_id now) db.sessions sid

/-- A session that is ACTIVE with its deadline passed is closed by the sweep,
`ended_at` stamped with the evaluation time. -/
theorem sweepSession_expired (now : Nat) (s : VoteSession) (t : Nat)
    (hac : s.auto_close_at = some t) (ht : t ≤ now) (hst : s.status = .active) :
    sweepSession now s = { s with status := .closed, ended_at := some now } := by
  have hexp : expiredActive now s = true := by
    unfold expiredActive
    rw [hst, hac]
    simp only [Bool.and_eq_true, decide_eq_true_eq]
    exact ⟨trivial, ht⟩
  unfold sweepSession
  rw [hexp]
  rfl

/-- The sweep touches only the `sessions` table. -/
theorem sweep_participations (db : DB) (now : Nat) :
    (checkAndAutoCloseSessions db now).1.participations = db.participations := rfl

/-- The validation/insert part of a vote cast never touches the `sessions` table. -/
theorem castVote_sessions (db : DB) (sid rid uid : Nat) :
    (castVote db sid rid uid).1.sessions = db.sessions := by
  unfold castVote
  cases findSession db sid with
  | none => rfl
  | some s =>
    dsimp only
    split
    · rfl
    · split
      · rfl
      · split
        · rfl
        · rfl

/-! ### Claim C1 -/

/-- Claim C1 counterexample: in `dbExpired`, session 1 is ACTIVE and its
`auto_close_at = 5` lies in the past of any clock `now ≥ 5` (e.g. `5 < 10`), yet
`get_session_with_results` returns the session still ACTIVE with `ended_at` unset:
the results-read performs no auto-close transition at all, so it does observe the
session as ACTIVE past its deadline. -/
theorem claim_C1_counterexample :
    (findSession dbExpired 1).map (fun s => s.auto_close_at) = some (some 5) ∧
    5 < 10 ∧
    (getSessionWithResults dbExpired 1).map
        (fun v => (v.session.status, v.session.ended_at))
      = some (.active, none) := by
  exact ⟨rfl, by norm_num, rfl⟩

/-- Claim C1 amended: only the vote-cast path auto-closes first.  If the stored
session is ACTIVE with `auto_close_at ≤ now`, then `vote_in_session` transitions
it to CLOSED (stamping `ended_at = now`) before its own validity checks, and the
cast itself is then rejected as targeting an inactive session — so a vote cast
never observes the session as ACTIVE past its deadline. -/
theorem claim_C1_vote_cast_sweeps_first
    (db : DB) (sid rid uid now : Nat) (s : VoteSession) (t : Nat)
    (hfind : findSession db sid = some s)
    (hac : s.auto_close_at = some t) (ht : t ≤ now) (hst : s.status = .active) :
    findSession (voteInSession db sid rid uid now).1 sid
        = some { s with status := .closed, ended_at := some now } ∧
    (voteInSession db sid rid uid now).2 = .error .notActive := by
  have hfind1 : findSession (checkAndAutoCloseSessions db now).1 sid
      = some { s with status := .closed, ended_at := some now } := by
    rw [findSession_sweep, hfind, Option.map_some',
      sweepSession_expired now s t hac ht hst]
  have hcast : castVote (checkAndAutoCloseSessions db now).1 sid rid uid
      = ((checkAndAutoCloseSessions db now).1, .error .notActive) := by
    unfold castVote
    rw [hfind1]
    simp
  unfold voteInSession
  rw [hcast]
  exact ⟨hfind1, rfl⟩

/-- Concrete instantiation of the amended C1 theorem: in `dbExpired` at `now = 10`
a vote cast closes session 1 and is rejected as inactive. -/
theorem claim_C1_witness :
    findSession (voteInSession dbExpired 1 1 10 10).1 1
        = some { sessExpired with status := .closed, ended_at := some 10 } ∧
    (voteInSession dbExpired 1 1 10 10).2 = .error .notActive :=
  claim_C1_vote_cast_sweeps_first dbExpired 1 1 10 10 sessExpired 5 rfl rfl
    (by norm_num) rfl

/-! ### Claim C2 -/

/-- Claim C2 counterexample: in `dbTie`, restaurants 2 and 1 are fully tied
(weighted_votes 1 and 1 distinct voter each), yet the results rows come out with
restaurant 2 first: the query orders only by `sum(weight) DESC` and
`count(distinct user_id) DESC` and has no restaurant-id tie-break, so on a full
tie the row of the LOWER id is not guaranteed first (here the underlying table
order wins and the higher id leads). -/
theorem claim_C2_counterexample :
    (resultRows dbTie 1).map
        (fun r => (r.restaurant_id, r.weighted_votes, r.distinct_voters))
      = [(2, (1 : ℚ), 1), (1, (1 : ℚ), 1)] := by
  norm_num [resultRows, groupRows, dbTie, sessionVotes, List.insertionSort,
    List.orderedInsert, rowGE]

/-- Claim C2 amended: the aggregated rows (whose head is the winner) are ordered
by `weighted_votes` descending and, on equal `weighted_votes`, by
`distinct_voters` descending; the query imposes no further order, so rows tied on
both keys are in no particular order (in particular not restaurant-id ascending). -/
theorem claim_C2_amended (db : DB) (sid : Nat) :
    (resultRows db sid).Pairwise (fun a b =>
      b.weighted_votes < a.weighted_votes ∨
        (a.weighted_votes = b.weighted_votes ∧
          b.distinct_voters ≤ a.distinct_voters)) :=
  List.sorted_insertionSort rowGE (groupRows db sid)

/-! ### Claim C3 -/

/-- The status a session query returns only depends on the sessions table. -/
theorem statusOf_sessions_eq (db1 db2 : DB) (h : db1.sessions = db2.sessions)
    (sid : Nat) : statusOf db1 sid = statusOf db2 sid := by
  unfold statusOf findSession
  rw [h]

/-- Status lookup after an id-preserving rewrite of the sessions table. -/
theorem statusOf_map (db : DB) (f : VoteSession → VoteSession)
    (hf : ∀ u, (f u).id = u.id) (sid : Nat) :
    statusOf { db with sessions := db.sessions.map f } sid
      = (findSession db sid).map (fun u => (f u).status) := by
  unfold statusOf findSession
  rw [find?_map_comm f hf db.sessions sid]
  cases db.sessions.find? (fun s => s.id == sid) <;> rfl

/-- Unpacks the status change of an id-preserving rewrite into the affected row. -/
theorem statusOf_map_point (db : DB) (sid : Nat) (f : VoteSession → VoteSession)
    (hf : ∀ u, (f u).id = u.id) (s t : VoteSessionStatus)
    (h1 : statusOf db sid = some s)
    (h2 : statusOf { db with sessions := db.sessions.map f } sid = some t) :
    ∃ v, findSession db sid = some v ∧ v.status = s ∧ (f v).status = t := by
  rw [statusOf_map db f hf sid] at h2
  unfold statusOf at h1
  cases hfs : findSession db sid with
  | none => rw [hfs] at h1; cases h1
  | some v =>
    rw [hfs] at h1 h2
    simp only [Option.map_some', Option.some.injEq] at h1 h2
    exact ⟨v, rfl, h1, h2⟩

/-- A session found by id carries that id. -/
theorem findSession_id (db : DB) (sid : Nat) (v : VoteSession)
    (h : findSession db sid = some v) : v.id = sid := by
  unfold findSession at h
  have := List.find?_some h
  exact eq_of_beq this

/-- Same state on both sides of the step means the status did not move. -/
theorem statusStep_of_same (db : DB) (sid : Nat) (s t : VoteSessionStatus)
    (h1 : statusOf db sid = some s) (h2 : statusOf db sid = some t) :
    statusStep s t := by
  rw [h1] at h2
  exact Or.inl (Option.some.inj h2)

/-- The auto-close sweep only moves a status along ACTIVE→CLOSED. -/
theorem statusStep_sweep (db : DB) (now sid : Nat) (s t : VoteSessionStatus)
    (h1 : statusOf db sid = some s)
    (h2 : statusOf (checkAndAutoCloseSessions db now).1 sid = some t) :
    statusStep s t := by
  have h2' : statusOf { db with sessions := db.sessions.map (sweepSession now) } sid
      = some t := h2
  rcases statusOf_map_point db sid (sweepSession now) (sweepSession_id now) s t h1 h2'
    with ⟨v, _, hvs, hsw⟩
  unfold sweepSession at hsw
  by_cases he : expiredActive now v = true
  · rw [if_pos he] at hsw
    have hva : v.status = .active := by
      unfold expiredActive at he
      simp only [Bool.and_eq_true, decide_eq_true_eq] at he
      exact he.1
    exact Or.inr (Or.inr ⟨hvs ▸ hva, hsw.symm⟩)
  · rw [if_neg he] at hsw
    exact Or.inl (hvs ▸ hsw.symm ▸ rfl)

/-- Claim C3: for every state and every lifecycle-touching operation (start, end,
auto-close sweep, update, vote cast), the status of any session either stays put
or moves along DRAFT→ACTIVE (start) or ACTIVE→CLOSED (end / sweep); in particular
no operation moves a status backwards or changes a CLOSED session's status. -/
theorem claim_C3_status_progression (op : Op) (db : DB) (now sid : Nat)
    (s t : VoteSessionStatus)
    (h1 : statusOf db sid = some s)
    (h2 : statusOf (applyOp op db now) sid = some t) :
    statusStep s t := by
  cases op with
  | sweep => exact statusStep_sweep db now sid s t h1 h2
  | vote sid0 rid uid =>
    have hs : statusOf (applyOp (.vote sid0 rid uid) db now) sid
        = statusOf (checkAndAutoCloseSessions db now).1 sid := by
      apply statusOf_sessions_eq
      exact castVote_sessions (checkAndAutoCloseSessions db now).1 sid0 rid uid
    rw [hs] at h2
    exact statusStep_sweep db now sid s t h1 h2
  | start sid0 uid =>
    simp only [applyOp, startSession] at h2
    cases hf : findSession db sid0 with
    | none => rw [hf] at h2; exact statusStep_of_same db sid s t h1 h2
    | some u =>
      rw [hf] at h2
      dsimp only at h2
      by_cases hc : u.created_by_user_id ≠ uid
      · rw [if_pos hc] at h2; exact statusStep_of_same db sid s t h1 h2
      · rw [if_neg hc] at h2
        by_cases hd : u.status ≠ .draft
        · rw [if_pos hd] at h2; exact statusStep_of_same db sid s t h1 h2
        · rw [if_neg hd] at h2
          by_cases hr : u.restaurants = []
          · rw [if_pos hr] at h2; exact statusStep_of_same db sid s t h1 h2
          · rw [if_neg hr] at h2
            have hg : ∀ w : VoteSession,
                ((fun v => if v.id == sid0 then
                    { v with status := .active, started_at := some now }
                  else v) w).id = w.id := by
              intro w; dsimp only; split <;> rfl
            rcases statusOf_map_point db sid _ hg s t h1 h2 with ⟨v, hfv, hvs, hgv⟩
            by_cases hv : (v.id == sid0) = true
            · have ht' : t = .active := by
                rw [← hgv]; simp only [hv, if_true]
              have hsid : sid = sid0 := by
                rw [← findSession_id db sid v hfv]
                exact eq_of_beq hv
              have huv : u = v := by
                rw [hsid] at hfv
                rw [hf] at hfv
                exact Option.some.inj hfv
              have hs' : s = .draft := by
                rw [← hvs, ← huv]
                exact not_not.mp hd
              exact Or.inr (Or.inl ⟨hs', ht'⟩)
            · have : t = s := by
                rw [← hgv, ← hvs]
                simp only [hv, if_false, Bool.false_eq_true]
              exact Or.inl this.symm
  | endSess sid0 uid =>
    simp only [applyOp, endSession] at h2
    cases hf : findSession db sid0 with
    | none => rw [hf] at h2; exact statusStep_of_same db sid s t h1 h2
    | some u =>
      rw [hf] at h2
      dsimp only at h2
      by_cases hc : u.created_by_user_id ≠ uid
      · rw [if_pos hc] at h2; exact statusStep_of_same db sid s t h1 h2
      · rw [if_neg hc] at h2
        by_cases ha : u.status ≠ .active
        · rw [if_pos ha] at h2; exact statusStep_of_same db sid s t h1 h2
        · rw [if_neg ha] at h2
          have hg : ∀ w : VoteSession,
              ((fun v => if v.id == sid0 then
                  { v with status := .closed, ended_at := some now }
                else v) w).id = w.id := by
            intro w; dsimp only; split <;> rfl
          rcases statusOf_map_point db sid _ hg s t h1 h2 with ⟨v, hfv, hvs, hgv⟩
          by_cases hv : (v.id == sid0) = true
          · have ht' : t = .closed := by
              rw [← hgv]; simp only [hv, if_true]
            have hsid : sid = sid0 := by
              rw [← findSession_id db sid v hfv]
              exact eq_of_beq hv
            have huv : u = v := by
              rw [hsid] at hfv
              rw [hf] at hfv
              exact Option.some.inj hfv
            have hs' : s = .active := by
              rw [← hvs, ← huv]
              exact not_not.mp ha
            exact Or.inr (Or.inr ⟨hs', ht'⟩)
          · have : t = s := by
              rw [← hgv, ← hvs]
              simp only [hv, if_false, Bool.false_eq_true]
            exact Or.inl this.symm
  | update sid0 uid title descr =>
    simp only [applyOp, updateSession] at h2
    cases hf : findSession db sid0 with
    | none => rw [hf] at h2; exact statusStep_of_same db sid s t h1 h2
    | some u =>
      rw [hf] at h2
      dsimp only at h2
      by_cases hc : u.created_by_user_id ≠ uid
      · rw [if_pos hc] at h2; exact statusStep_of_same db sid s t h1 h2
      · rw [if_neg hc] at h2
        have hg : ∀ w : VoteSession,
            ((fun v => if v.id == sid0 then
                { v with
                    title := title.getD v.title,
                    description := descr.elim v.description some }
              else v) w).id = w.id := by
          intro w; dsimp only; split <;> rfl
        rcases statusOf_map_point db sid (fun v =>
            if v.id == sid0 then
              { v with
                  title := title.getD v.title,
                  description := descr.elim v.description some }
            else v) hg s t h1 h2 with ⟨v, _, hvs, hgv⟩
        have : t = s := by
          rw [← hgv, ← hvs]
          by_cases hv : (v.id == sid0) = true
          · simp only [hv, if_true]
          · simp only [hv, if_false, Bool.false_eq_true]
        exact Or.inl this.symm

/-- Concrete instantiation of C3: starting the draft session of `dbDraft` moves
its status DRAFT→ACTIVE, a permitted step. -/
theorem claim_C3_witness :
    statusStep VoteSessionStatus.draft VoteSessionStatus.active :=
  claim_C3_status_progression (.start 1 7) dbDraft 5 1 .draft .active rfl rfl

/-! ### Claim C4 -/

/-- On a successful cast, the persisted weight is the pure schedule function of
the persisted sequence. -/
theorem castVote_weight (db : DB) (sid rid uid : Nat) (db' : DB)
    (p : VoteParticipation)
    (h : castVote db sid rid uid = (db', .ok p)) :
    p.weight = weightOfSequence p.vote_sequence := by
  unfold castVote at h
  cases hf : findSession db sid with
  | none => rw [hf] at h; simp at h
  | some s =>
    rw [hf] at h
    dsimp only at h
    by_cases h1 : s.status ≠ .active
    · rw [if_pos h1] at h; simp at h
    · rw [if_neg h1] at h
      by_cases h2 : ¬ (s.restaurants.contains rid)
      · rw [if_pos h2] at h; simp at h
      · rw [if_neg h2] at h
        by_cases h3 : s.votes_per_user ≤ (userVotes db sid uid).length
        · rw [if_pos h3] at h; simp at h
        · rw [if_neg h3] at h
          simp only [Prod.mk.injEq, Except.ok.injEq] at h
          rw [← h.2]
          rfl

/-- Claim C4: every successful vote records `weight = weightOfSequence sequence`,
and the schedule maps sequence 1 to 1.0, sequence 2 to 0.5 and every sequence ≥ 3
to 0.25 (the schedule repeats its final entry). -/
theorem claim_C4_weight_schedule (db : DB) (sid rid uid now : Nat) (db' : DB)
    (p : VoteParticipation)
    (h : voteInSession db sid rid uid now = (db', .ok p)) :
    p.weight = weightOfSequence p.vote_sequence ∧
    weightOfSequence 1 = 1 ∧ weightOfSequence 2 = 1/2 ∧
    ∀ n, 3 ≤ n → weightOfSequence n = 1/4 := by
  refine ⟨castVote_weight _ sid rid uid db' p h, rfl, rfl, ?_⟩
  intro n hn
  have h1 : ¬ n = 1 := by omega
  have h2 : ¬ n = 2 := by omega
  unfold weightOfSequence
  rw [if_neg h1, if_neg h2]

/-- Concrete instantiation of C4: user 10's first vote in `dbOpen` is persisted
with sequence 1 and scheduled weight 1. -/
theorem claim_C4_witness :
    ({ vote_session_id := 1, user_id := 10, restaurant_id := 1,
        vote_sequence := 1, weight := 1 } : VoteParticipation).weight
        = weightOfSequence 1 ∧
    weightOfSequence 1 = 1 ∧ weightOfSequence 2 = 1/2 ∧
    ∀ n, 3 ≤ n → weightOfSequence n = 1/4 :=
  claim_C4_weight_schedule dbOpen 1 1 10 3 _ _ rfl

/-! ### Claim C5 -/

/-- Membership in `seqList n` means lying in `1..n`. -/
theorem mem_seqList (m n : Nat) (h : m ∈ seqList n) : 1 ≤ m ∧ m ≤ n := by
  induction n with
  | zero => cases h
  | succ k ih =>
    unfold seqList at h
    rw [List.mem_append] at h
    rcases h with h | h
    · have := ih h; omega
    · rw [List.mem_singleton] at h; omega

/-- Appending a row of user `uid` in session `sid` extends exactly that user's
vote list. -/
theorem userVotes_append_self (db : DB) (sid uid : Nat) (p : VoteParticipation)
    (hp1 : p.vote_session_id = sid) (hp2 : p.user_id = uid) :
    userVotes { db with participations := db.participations ++ [p] } sid uid
      = userVotes db sid uid ++ [p] := by
  unfold userVotes
  dsimp only
  rw [List.filter_append]
  congr 1
  simp [List.filter, hp1, hp2]

/-- Appending a row of another (session, user) pair leaves a user's vote list
unchanged. -/
theorem userVotes_append_other (db : DB) (sid' uid' : Nat) (p : VoteParticipation)
    (hne : ¬ (p.vote_session_id = sid' ∧ p.user_id = uid')) :
    userVotes { db with participations := db.participations ++ [p] } sid' uid'
      = userVotes db sid' uid' := by
  unfold userVotes
  dsimp only
  rw [List.filter_append]
  have hnil : List.filter
      (fun q => q.vote_session_id == sid' && q.user_id == uid') [p] = [] := by
    by_cases hA : p.vote_session_id = sid'
    · have hB : p.user_id ≠ uid' := fun hB => hne ⟨hA, hB⟩
      have hB' : (p.user_id == uid') = false := beq_eq_false_iff_ne.mpr hB
      simp [List.filter, hA, hB']
    · have hA' : (p.vote_session_id == sid') = false := beq_eq_false_iff_ne.mpr hA
      simp [List.filter, hA']
  rw [hnil, List.append_nil]

/-- Appending the next-sequence row for a user with remaining budget preserves
the ledger invariants. -/
theorem appendVote_ledgerInv (db : DB) (sid rid uid : Nat) (w : ℚ)
    (s : VoteSession) (hf : findSession db sid = some s)
    (hlt : (userVotes db sid uid).length < s.votes_per_user)
    (hd : denseSequences db) (hb : budgetRespected db) (hu : uniqueTriples db) :
    ledgerInv { db with participations := db.participations ++
      [{ vote_session_id := sid, user_id := uid, restaurant_id := rid,
         vote_sequence := (userVotes db sid uid).length + 1, weight := w }] } := by
  refine ⟨?_, ?_, ?_⟩
  · intro sid' uid'
    by_cases hmatch : sid = sid' ∧ uid = uid'
    · obtain ⟨h1, h2⟩ := hmatch
      subst h1; subst h2
      rw [userVotes_append_self db sid uid _ rfl rfl, List.map_append,
        hd sid uid, List.length_append]
      rfl
    · rw [userVotes_append_other db sid' uid' _ (fun hc => hmatch hc)]
      exact hd sid' uid'
  · intro sid' uid' s' hfs'
    by_cases hmatch : sid = sid' ∧ uid = uid'
    · obtain ⟨h1, h2⟩ := hmatch
      subst h1; subst h2
      rw [userVotes_append_self db sid uid _ rfl rfl, List.length_append]
      have hs : s' = s := by
        have hfd : findSession db sid = some s' := hfs'
        rw [hf] at hfd
        exact (Option.some.inj hfd).symm
      rw [hs]
      simp only [List.length_singleton]
      omega
    · rw [userVotes_append_other db sid' uid' _ (fun hc => hmatch hc)]
      exact hb sid' uid' s' hfs'
  · unfold uniqueTriples
    dsimp only
    rw [List.pairwise_append]
    refine ⟨hu, List.pairwise_singleton _ _, ?_⟩
    intro q hq r hr
    rw [List.mem_singleton] at hr
    subst hr
    intro hkey
    unfold tripleKey at hkey
    simp only [Prod.mk.injEq] at hkey
    have hqin : q ∈ userVotes db sid uid := by
      unfold userVotes
      rw [List.mem_filter]
      refine ⟨hq, ?_⟩
      simp [hkey.1, hkey.2.1]
    have hmem : q.vote_sequence
        ∈ (userVotes db sid uid).map (fun r => r.vote_sequence) :=
      List.mem_map_of_mem _ hqin
    rw [hd sid uid] at hmem
    have := mem_seqList _ _ hmem
    omega

/-- The auto-close sweep preserves the ledger invariants (it touches neither the
participations table nor any session's `votes_per_user`). -/
theorem sweep_ledgerInv (db : DB) (now : Nat) (hinv : ledgerInv db) :
    ledgerInv (checkAndAutoCloseSessions db now).1 := by
  obtain ⟨hd, hb, hu⟩ := hinv
  refine ⟨hd, ?_, hu⟩
  intro sid uid s hfs
  rw [findSession_sweep] at hfs
  cases hf : findSession db sid with
  | none => rw [hf] at hfs; cases hfs
  | some u =>
    rw [hf, Option.map_some'] at hfs
    have hvpu : s.votes_per_user = u.votes_per_user := by
      rw [← Option.some.inj hfs]
      unfold sweepSession
      split <;> rfl
    rw [hvpu]
    exact hb sid uid u hf

/-- The validation/insert part of a cast preserves the ledger invariants. -/
theorem castVote_ledgerInv (db : DB) (sid rid uid : Nat) (hinv : ledgerInv db) :
    ledgerInv (castVote db sid rid uid).1 := by
  obtain ⟨hd, hb, hu⟩ := hinv
  unfold castVote
  cases hf : findSession db sid with
  | none => exact ⟨hd, hb, hu⟩
  | some s =>
    dsimp only
    by_cases h1 : s.status ≠ .active
    · rw [if_pos h1]; exact ⟨hd, hb, hu⟩
    · rw [if_neg h1]
      by_cases h2 : ¬ (s.restaurants.contains rid)
      · rw [if_pos h2]; exact ⟨hd, hb, hu⟩
      · rw [if_neg h2]
        by_cases h3 : s.votes_per_user ≤ (userVotes db sid uid).length
        · rw [if_pos h3]; exact ⟨hd, hb, hu⟩
        · rw [if_neg h3]
          exact appendVote_ledgerInv db sid rid uid _ s hf
            (Nat.lt_of_not_le h3) hd hb hu

/-- A successful cast assigns the next dense sequence, within budget. -/
theorem castVote_ok_sequence (db : DB) (sid rid uid : Nat) (db' : DB)
    (p : VoteParticipation)
    (h : castVote db sid rid uid = (db', .ok p)) :
    p.vote_sequence = (userVotes db sid uid).length + 1 ∧
    ∃ s, findSession db sid = some s ∧
      p.vote_sequence ≤ s.votes_per_user := by
  unfold castVote at h
  cases hf : findSession db sid with
  | none => rw [hf] at h; simp at h
  | some s =>
    rw [hf] at h
    dsimp only at h
    by_cases h1 : s.status ≠ .active
    · rw [if_pos h1] at h; simp at h
    · rw [if_neg h1] at h
      by_cases h2 : ¬ (s.restaurants.contains rid)
      · rw [if_pos h2] at h; simp at h
      · rw [if_neg h2] at h
        by_cases h3 : s.votes_per_user ≤ (userVotes db sid uid).length
        · rw [if_pos h3] at h; simp at h
        · rw [if_neg h3] at h
          simp only [Prod.mk.injEq, Except.ok.injEq] at h
          rw [← h.2]
          refine ⟨rfl, s, rfl, ?_⟩
          show (userVotes db sid uid).length + 1 ≤ s.votes_per_user
          omega

/-- Claim C5: assuming the ledger invariants (dense per-user sequences `1..count`,
counts within `votes_per_user`, and uniqueness of `(session, user, sequence)`),
a vote cast preserves them, and every successful cast assigns
`sequence = prior count + 1`, which stays within the session's `votes_per_user`. -/
theorem claim_C5_ledger (db : DB) (sid rid uid now : Nat) (hinv : ledgerInv db) :
    ledgerInv (voteInSession db sid rid uid now).1 ∧
    ∀ db' p, voteInSession db sid rid uid now = (db', .ok p) →
      p.vote_sequence = (userVotes db sid uid).length + 1 ∧
      ∃ s, findSession (checkAndAutoCloseSessions db now).1 sid = some s ∧
        p.vote_sequence ≤ s.votes_per_user := by
  constructor
  · exact castVote_ledgerInv _ sid rid uid (sweep_ledgerInv db now hinv)
  · intro db' p h
    exact castVote_ok_sequence (checkAndAutoCloseSessions db now).1 sid rid uid db' p h

/-- Concrete instantiation of C5: casting in `dbOpen` (whose empty ledger
trivially satisfies the invariants) preserves the ledger invariants. -/
theorem claim_C5_witness : ledgerInv (voteInSession dbOpen 1 1 10 3).1 :=
  (claim_C5_ledger dbOpen 1 1 10 3
    ⟨fun _ _ => rfl, fun _ _ _ _ => Nat.zero_le _, List.Pairwise.nil⟩).1

/-! ### Claim C6 -/

/-- A cast by a user whose count has reached the budget fails with the
budget-exhausted error and leaves the state unchanged. -/
theorem castVote_budget (db : DB) (sid rid uid : Nat) (s : VoteSession)
    (hf : findSession db sid = some s) (hst : s.status = .active)
    (hm : s.restaurants.contains rid = true)
    (hb : s.votes_per_user ≤ (userVotes db sid uid).length) :
    castVote db sid rid uid = (db, .error .budgetExhausted) := by
  unfold castVote
  rw [hf]
  dsimp only
  rw [if_neg (not_not_intro hst), if_neg (not_not_intro hm), if_pos hb]

/-- Claim C6: if (after the auto-close sweep) the session is ACTIVE, the
restaurant is a member, but the user's existing vote count has reached
`votes_per_user`, then `vote_in_session` fails with the BudgetExhausted error,
no vote record is created, and every user's vote count is unchanged. -/
theorem claim_C6_budget_exhausted (db : DB) (sid rid uid now : Nat)
    (s : VoteSession)
    (hf : findSession (checkAndAutoCloseSessions db now).1 sid = some s)
    (hst : s.status = .active)
    (hm : s.restaurants.contains rid = true)
    (hb : s.votes_per_user ≤ (userVotes db sid uid).length) :
    voteInSession db sid rid uid now
        = ((checkAndAutoCloseSessions db now).1, .error .budgetExhausted) ∧
    ∀ sid' uid', userVotes (voteInSession db sid rid uid now).1 sid' uid'
        = userVotes db sid' uid' := by
  have h := castVote_budget (checkAndAutoCloseSessions db now).1 sid rid uid s
    hf hst hm hb
  constructor
  · exact h
  · intro sid' uid'
    have hdb : (voteInSession db sid rid uid now).1
        = (checkAndAutoCloseSessions db now).1 := by
      show (castVote (checkAndAutoCloseSessions db now).1 sid rid uid).1 = _
      rw [h]
    rw [hdb]
    rfl

/-- Concrete instantiation of C6: in `dbBudget` user 10 has used the budget of 1,
so another cast fails with BudgetExhausted. -/
theorem claim_C6_witness :
    voteInSession dbBudget 1 1 10 3
        = ((checkAndAutoCloseSessions dbBudget 3).1, .error .budgetExhausted) :=
  (claim_C6_budget_exhausted dbBudget 1 1 10 3
    { id := 1, title := "lunch", description := none, status := .active,
      created_by_user_id := 7, votes_per_user := 1, auto_close_at := none,
      started_at := some 1, ended_at := none, restaurants := [1] }
    rfl rfl rfl (Nat.le_refl 1)).1

/-! ### Claim C7 -/

/-- An empty group means the restaurant has no votes. -/
theorem groupRow_none (vs : List VoteParticipation) (r : Restaurant)
    (h : groupRow vs r = none) :
    vs.filter (fun p => p.restaurant_id == r.id) = [] := by
  unfold groupRow at h
  by_cases he : (vs.filter (fun p => p.restaurant_id == r.id)).isEmpty = true
  · exact List.isEmpty_iff.mp he
  · rw [if_neg he] at h
    cases h

/-- A non-empty group's `weighted_votes` is the sum of its votes' weights. -/
theorem groupRow_some_weight (vs : List VoteParticipation) (r : Restaurant)
    (row : ResultRow) (h : groupRow vs r = some row) :
    row.weighted_votes
      = ((vs.filter (fun p => p.restaurant_id == r.id)).map
          (fun p => p.weight)).sum := by
  unfold groupRow at h
  by_cases he : (vs.filter (fun p => p.restaurant_id == r.id)).isEmpty = true
  · rw [if_pos he] at h; cases h
  · rw [if_neg he] at h
    rw [← Option.some.inj h]

/-- Dropping empty groups does not change the total of the per-group sums. -/
theorem groupRow_filterMap_sum (vs : List VoteParticipation)
    (rs : List Restaurant) :
    ((rs.filterMap (groupRow vs)).map (fun row => row.weighted_votes)).sum
      = (rs.map (fun r =>
          ((vs.filter (fun p => p.restaurant_id == r.id)).map
            (fun p => p.weight)).sum)).sum := by
  induction rs with
  | nil => rfl
  | cons r rs ih =>
    rw [List.filterMap_cons, List.map_cons, List.sum_cons]
    cases hg : groupRow vs r with
    | none =>
      rw [ih, groupRow_none vs r hg]
      simp
    | some row =>
      rw [List.map_cons, List.sum_cons, ih, groupRow_some_weight vs r row hg]

/-- Summing the per-restaurant weight sums over distinct restaurant ids covering
every vote gives the flat sum of all weights. -/
theorem sum_grouped_weights (rs : List Restaurant) (vs : List VoteParticipation)
    (hnodup : (rs.map (fun r => r.id)).Nodup)
    (hcover : ∀ p ∈ vs, p.restaurant_id ∈ rs.map (fun r => r.id)) :
    (rs.map (fun r =>
        ((vs.filter (fun p => p.restaurant_id == r.id)).map
          (fun p => p.weight)).sum)).sum
      = (vs.map (fun p => p.weight)).sum := by
  induction rs generalizing vs with
  | nil =>
    have hv : vs = [] := by
      rw [List.eq_nil_iff_forall_not_mem]
      intro p hp
      have := hcover p hp
      simp at this
    subst hv; rfl
  | cons r rs ih =>
    rw [List.map_cons, List.sum_cons]
    have hperm : ((vs.filter (fun p => p.restaurant_id == r.id)) ++
        vs.filter (fun p => !(p.restaurant_id == r.id))).Perm vs :=
      List.filter_append_perm _ vs
    have hsum : (vs.map (fun p => p.weight)).sum
        = ((vs.filter (fun p => p.restaurant_id == r.id)).map
            (fun p => p.weight)).sum
          + ((vs.filter (fun p => !(p.restaurant_id == r.id))).map
            (fun p => p.weight)).sum := by
      rw [← List.sum_append, ← List.map_append]
      exact ((hperm.map (fun p => p.weight)).sum_eq).symm
    rw [hsum]
    have hrid : r.id ∉ rs.map (fun u => u.id) := by
      rw [List.map_cons] at hnodup
      exact (List.nodup_cons.mp hnodup).1
    have htail : (rs.map (fun u =>
        ((vs.filter (fun p => p.restaurant_id == u.id)).map
          (fun p => p.weight)).sum)).sum
        = (rs.map (fun u =>
            (((vs.filter (fun p => !(p.restaurant_id == r.id))).filter
              (fun p => p.restaurant_id == u.id)).map
              (fun p => p.weight)).sum)).sum := by
      apply congrArg
      apply List.map_congr_left
      intro u hu
      have hne : u.id ≠ r.id := by
        intro hew
        exact hrid (hew ▸ List.mem_map_of_mem (fun v => v.id) hu)
      have hfe : vs.filter (fun p => p.restaurant_id == u.id)
          = (vs.filter (fun p => !(p.restaurant_id == r.id))).filter
              (fun p => p.restaurant_id == u.id) := by
        rw [List.filter_filter]
        apply List.filter_congr
        intro p _
        by_cases hp : p.restaurant_id = u.id
        · simp [hp, hne]
        · have hpu : (p.restaurant_id == u.id) = false :=
            beq_eq_false_iff_ne.mpr hp
          simp [hpu]
      rw [hfe]
    rw [htail]
    rw [ih (vs.filter (fun p => !(p.restaurant_id == r.id)))
      (by rw [List.map_cons] at hnodup; exact (List.nodup_cons.mp hnodup).2)
      ?_]
    · intro p hp
      rw [List.mem_filter] at hp
      have hin := hcover p hp.1
      rw [List.map_cons, List.mem_cons] at hin
      rcases hin with hin | hin
      · exfalso
        rw [Bool.not_eq_true'] at hp
        exact absurd hin (beq_eq_false_iff_ne.mp hp.2)
      · exact hin

/-- Sorting the rows does not change their weight total. -/
theorem resultRows_sum (db : DB) (sid : Nat) :
    ((resultRows db sid).map (fun row => row.weighted_votes)).sum
      = ((groupRows db sid).map (fun row => row.weighted_votes)).sum :=
  ((List.perm_insertionSort rowGE (groupRows db sid)).map
    (fun row => row.weighted_votes)).sum_eq

/-- Claim C7: with distinct restaurant primary keys and every vote referencing an
existing restaurant (the foreign-key invariant), the reported `total_votes` equals
the sum of `weight` over the session's vote records, which equals the sum of
`weighted_votes` over the per-restaurant result rows. -/
theorem claim_C7_total_votes (db : DB) (sid : Nat)
    (hnodup : (db.restaurants.map (fun r => r.id)).Nodup)
    (hfk : ∀ p ∈ db.participations,
      p.restaurant_id ∈ db.restaurants.map (fun r => r.id)) :
    totalVotes db sid = ((sessionVotes db sid).map (fun p => p.weight)).sum ∧
    totalVotes db sid
      = ((resultRows db sid).map (fun row => row.weighted_votes)).sum := by
  refine ⟨rfl, ?_⟩
  rw [resultRows_sum]
  unfold groupRows
  rw [groupRow_filterMap_sum]
  rw [sum_grouped_weights db.restaurants (sessionVotes db sid) hnodup ?_]
  · rfl
  · intro p hp
    unfold sessionVotes at hp
    rw [List.mem_filter] at hp
    exact hfk p hp.1

/-- Concrete instantiation of C7: in `dbTie` the reported total equals the
result-row total. -/
theorem claim_C7_witness :
    totalVotes dbTie 1
      = ((resultRows dbTie 1).map (fun row => row.weighted_votes)).sum :=
  (claim_C7_total_votes dbTie 1 (by decide)
    (by
      intro p hp
      simp only [dbTie, List.mem_cons, List.not_mem_nil, or_false] at hp
      rcases hp with h | h <;> subst h <;> decide)).2

/-! ### Claim C8 -/

/-- Claim C8 evidence, evaluated at the state of the repository's own test
`test_end_vote_session_returns_winning_restaurant`: the CRUD helper
`end_session_with_winner` ends the session and computes the winner
("Pizza Place"), but the `POST .../end` endpoint calls plain `end_session`
(its `response_model=VoteSession` has no `winning_restaurant` field), so the
endpoint's successful response carries no winner even though votes were cast. -/
theorem claim_C8_endpoint_drops_winner :
    (endSessionWithWinner dbEndTest 1 10 100).2
        = .ok (some { id := 1, name := "Pizza Place" }) ∧
    endVoteSessionEndpoint dbEndTest 1 10 100 = endSession dbEndTest 1 10 100 ∧
    (endSession dbEndTest 1 10 100).2 = .ok () :=
  ⟨rfl, rfl, rfl⟩

/-! ### Claim C9 -/

/-- Claim C9: `start` by the creator on a DRAFT session with empty membership
fails with the no-restaurants InvalidState error and leaves the state — hence the
DRAFT status and the unset `started_at` — unchanged; and `start` succeeds only
when the requester is the creator, the status is DRAFT and at least one
restaurant is a member. -/
theorem claim_C9_start_requirements :
    (∀ db sid uid now s, findSession db sid = some s →
      s.created_by_user_id = uid → s.status = .draft → s.restaurants = [] →
      startSession db sid uid now = (db, .error .noRestaurants)) ∧
    (∀ db sid uid now db', startSession db sid uid now = (db', .ok ()) →
      ∃ s, findSession db sid = some s ∧ s.created_by_user_id = uid ∧
        s.status = .draft ∧ s.restaurants ≠ []) := by
  constructor
  · intro db sid uid now s hf hc hd hr
    unfold startSession
    rw [hf]
    dsimp only
    rw [if_neg (not_not_intro hc), if_neg (not_not_intro hd), if_pos hr]
  · intro db sid uid now db' h
    unfold startSession at h
    cases hf : findSession db sid with
    | none => rw [hf] at h; simp at h
    | some s =>
      rw [hf] at h
      dsimp only at h
      by_cases h1 : s.created_by_user_id ≠ uid
      · rw [if_pos h1] at h; simp at h
      · rw [if_neg h1] at h
        by_cases h2 : s.status ≠ .draft
        · rw [if_pos h2] at h; simp at h
        · rw [if_neg h2] at h
          by_cases h3 : s.restaurants = []
          · rw [if_pos h3] at h; simp at h
          · exact ⟨s, rfl, not_not.mp h1, not_not.mp h2, h3⟩

/-- Concrete instantiation of C9: starting the member-less draft session of
`dbNoMembers` fails with the no-restaurants error and changes nothing. -/
theorem claim_C9_witness :
    startSession dbNoMembers 1 7 5 = (dbNoMembers, .error .noRestaurants) :=
  claim_C9_start_requirements.1 dbNoMembers 1 7 5
    { id := 1, title := "lunch", description := none, status := .draft,
      created_by_user_id := 7, votes_per_user := 3, auto_close_at := none,
      started_at := none, ended_at := none, restaurants := [] }
    rfl rfl rfl rfl

/-! ### Claim C10 -/

/-- Claim C10: creating a session with a non-null `auto_close_at` succeeds iff
the timestamp is strictly in the future and at most 30 days ahead of the current
time; otherwise the endpoint returns the 422 validation error and inserts no
session row. -/
theorem claim_C10_auto_close_validation (db : DB) (inp : VoteSessionCreateInput)
    (uid newId now t : Nat) (hin : inp.auto_close_at = some t) :
    ((∃ s, (createVoteSessionEndpoint db inp uid newId now).2 = .ok s) ↔
      (now < t ∧ t ≤ now + thirtyDays)) ∧
    ((¬ (now < t ∧ t ≤ now + thirtyDays)) →
      (createVoteSessionEndpoint db inp uid newId now).1 = db) := by
  unfold createVoteSessionEndpoint validateAutoCloseAt
  rw [hin]
  dsimp only
  by_cases h1 : t ≤ now
  · rw [if_pos h1]
    dsimp only
    constructor
    · constructor
      · rintro ⟨s, hs⟩; simp at hs
      · rintro ⟨hlt, _⟩; exact absurd hlt (by omega)
    · intro _; rfl
  · rw [if_neg h1]
    by_cases h2 : now + thirtyDays < t
    · rw [if_pos h2]
      dsimp only
      constructor
      · constructor
        · rintro ⟨s, hs⟩; simp at hs
        · rintro ⟨_, hle⟩; exact absurd hle (by omega)
      · intro _; rfl
    · rw [if_neg h2]
      dsimp only
      constructor
      · constructor
        · intro _; constructor <;> omega
        · intro _; exact ⟨_, rfl⟩
      · intro hcon; exact absurd ⟨by omega, by omega⟩ hcon

/-- Concrete instantiation of C10: `auto_close_at = 100` at `now = 50` is
strictly future and within 30 days, so creation succeeds. -/
theorem claim_C10_witness :
    ((∃ s, (createVoteSessionEndpoint dbOpen
        { title := "x", description := none, votes_per_user := 1,
          auto_close_at := some 100 } 7 2 50).2 = .ok s) ↔
      (50 < 100 ∧ 100 ≤ 50 + thirtyDays)) ∧
    ((¬ (50 < 100 ∧ 100 ≤ 50 + thirtyDays)) →
      (createVoteSessionEndpoint dbOpen
        { title := "x", description := none, votes_per_user := 1,
          auto_close_at := some 100 } 7 2 50).1 = dbOpen) :=
  claim_C10_auto_close_validation dbOpen
    { title := "x", description := none, votes_per_user := 1,
      auto_close_at := some 100 } 7 2 50 100 rfl

end ConviusVote
